import Mathlib

/-!
Shallow embedding of the STRATUS client (`client/main.js`) flight model,
scene catalog, environment composer, and input handlers.

Numbers are modelled with exact rationals (`ℚ`).  The source calls the
host math library for `Math.PI`, `sin`, `cos` and `sqrt` (via
`THREE.MathUtils.degToRad`, `THREE.Quaternion.setFromEuler`,
`THREE.Vector3.applyQuaternion` / `normalize`); those irrational-valued
primitives cannot be represented inside `ℚ`, so the embedding is
parametrised by a `MathModel`: a bundle of rational-valued stand-ins for
`pi`, `sin`, `cos` and `sqrt` together with exactly the algebraic facts
about them that the verified properties use (`pi > 0`, `sin 0 = 0`,
`cos 0 = 1`, `sqrt 1 = 1`), all true of the real functions.  Every
theorem below quantifies over an arbitrary `MathModel`, hence holds in
particular for the real interpretation.
-/

/-- Rational stand-ins for the host math primitives used by the client,
with the facts about them the program relies on (all valid for the real
`Math.PI`, `Math.sin`, `Math.cos`, `Math.sqrt`). -/
structure MathModel where
  pi : ℚ
  sin : ℚ → ℚ
  cos : ℚ → ℚ
  sqrt : ℚ → ℚ
  pi_pos : 0 < pi
  sin_zero : sin 0 = 0
  cos_zero : cos 0 = 1
  sqrt_one : sqrt 1 = 1

/-- A concrete computable `MathModel`, used to evaluate the embedding at
closed inputs (only the four bundled facts are ever relied on). -/
def sampleMath : MathModel where
  pi := 3
  sin := fun _ => 0
  cos := fun _ => 1
  sqrt := fun _ => 1
  pi_pos := by norm_num
  sin_zero := rfl
  cos_zero := rfl
  sqrt_one := rfl

/-- `function clamp(value, min, max) { return Math.max(min, Math.min(max, value)); }`
(`client/main.js`; the JS parameters `min`/`max` are renamed `lo`/`hi`). -/
def clamp (value lo hi : ℚ) : ℚ :=
  max lo (min hi value)

/-- `THREE.MathUtils.lerp( x, y, t ) = ( 1 - t ) * x + t * y`. -/
def lerp (x y t : ℚ) : ℚ :=
  (1 - t) * x + t * y

/-- `THREE.MathUtils.degToRad( degrees ) = degrees * Math.PI / 180`. -/
def degToRad (M : MathModel) (degrees : ℚ) : ℚ :=
  degrees * M.pi / 180

/-- A `THREE.Vector3` (also used for the x/y/z angles of a `THREE.Euler`). -/
structure Vec3 where
  x : ℚ
  y : ℚ
  z : ℚ
deriving DecidableEq

/-- `THREE.Vector3.add`: componentwise sum. -/
def Vec3.add (v w : Vec3) : Vec3 :=
  { x := v.x + w.x, y := v.y + w.y, z := v.z + w.z }

/-- `THREE.Vector3.multiplyScalar`. -/
def Vec3.multiplyScalar (v : Vec3) (scalar : ℚ) : Vec3 :=
  { x := v.x * scalar, y := v.y * scalar, z := v.z * scalar }

/-- `THREE.Vector3.divideScalar( scalar ) = multiplyScalar( 1 / scalar )`. -/
def Vec3.divideScalar (v : Vec3) (scalar : ℚ) : Vec3 :=
  v.multiplyScalar (1 / scalar)

/-- Squared length `x*x + y*y + z*z` of a `THREE.Vector3`. -/
def Vec3.lengthSq (v : Vec3) : ℚ :=
  v.x * v.x + v.y * v.y + v.z * v.z

/-- `THREE.Vector3.length() = Math.sqrt( lengthSq )`. -/
def Vec3.length (M : MathModel) (v : Vec3) : ℚ :=
  M.sqrt v.lengthSq

/-- `THREE.Vector3.normalize() = divideScalar( length() || 1 )`; the JS
`|| 1` substitutes `1` when the length is `0`. -/
def Vec3.normalize (M : MathModel) (v : Vec3) : Vec3 :=
  v.divideScalar (if Vec3.length M v = 0 then 1 else Vec3.length M v)

/-- A `THREE.Quaternion`. -/
structure Quat where
  x : ℚ
  y : ℚ
  z : ℚ
  w : ℚ
deriving DecidableEq

/-- `THREE.Quaternion.setFromEuler` for the default `'XYZ'` order (three.js
r155), from the Euler angles `e.x`, `e.y`, `e.z`:
`c1 = cos(x/2)` … `s3 = sin(z/2)`, then the `'XYZ'` branch of the switch.
The object's `group.quaternion` is kept in sync with `group.rotation` by
three.js, so the airplane's quaternion is exactly this of its rotation. -/
def setFromEulerXYZ (M : MathModel) (e : Vec3) : Quat :=
  let c1 := M.cos (e.x / 2)
  let c2 := M.cos (e.y / 2)
  let c3 := M.cos (e.z / 2)
  let s1 := M.sin (e.x / 2)
  let s2 := M.sin (e.y / 2)
  let s3 := M.sin (e.z / 2)
  { x := s1 * c2 * c3 + c1 * s2 * s3
    y := c1 * s2 * c3 - s1 * c2 * s3
    z := c1 * c2 * s3 + s1 * s2 * c3
    w := c1 * c2 * c3 - s1 * s2 * s3 }

/-- `THREE.Vector3.applyQuaternion` (three.js r155):
`t = 2 * cross( q.xyz, v )`, result `v + q.w * t + cross( q.xyz, t )`. -/
def Vec3.applyQuaternion (v : Vec3) (q : Quat) : Vec3 :=
  let tx := 2 * (q.y * v.z - q.z * v.y)
  let ty := 2 * (q.z * v.x - q.x * v.z)
  let tz := 2 * (q.x * v.y - q.y * v.x)
  { x := v.x + q.w * tx + q.y * tz - q.z * ty
    y := v.y + q.w * ty + q.z * tx - q.x * tz
    z := v.z + q.w * tz + q.x * ty - q.y * tx }

/-- The forward direction computed inside `Airplane.update`:
`new THREE.Vector3(0, 0, -1)` rotated by `group.quaternion` (derived from
`group.rotation`) and then normalized. -/
def forwardVector (M : MathModel) (rotation : Vec3) : Vec3 :=
  Vec3.normalize M (Vec3.applyQuaternion { x := 0, y := 0, z := -1 } (setFromEulerXYZ M rotation))

/-- The mutable state of the `Airplane` class that the flight model reads
and writes: the control/throttle/velocity fields set in the constructor,
plus `group.rotation` (an `'XYZ'` Euler) and `group.position`.  The
three.js meshes built by `buildModel` are render-only and carry no
simulation state beyond the group's transform. -/
structure Airplane where
  throttle : ℚ
  pitchInput : ℚ
  rollInput : ℚ
  velocity : ℚ
  rotation : Vec3
  position : Vec3
deriving DecidableEq

/-- `new Airplane()`: the constructor sets `throttle = 0.3`,
`pitchInput = rollInput = velocity = 0`, and `buildModel` ends with
`this.group.position.set(0, 5, 0)`; the group's rotation starts at zero. -/
def Airplane.new : Airplane where
  throttle := 3 / 10
  pitchInput := 0
  rollInput := 0
  velocity := 0
  rotation := { x := 0, y := 0, z := 0 }
  position := { x := 0, y := 5, z := 0 }

/-- `Airplane.update(delta)` (`client/main.js`, lines 110-132), statement
by statement: clamp the two inputs to `[-1, 1]`; integrate
`rotation.x += pitchInput * pitchRate * delta` and
`rotation.z += rollInput * rollRate * delta` with
`pitchRate = degToRad 30`, `rollRate = degToRad 60`; clamp the angles to
`±degToRad 30` (pitch) and `±degToRad 75` (roll); recompute
`velocity = lerp(20, 150, throttle)`; displace the position along the
normalized rotated forward vector by `velocity * delta`; finally raise
`position.y` to `2` when it fell below. -/
def Airplane.update (M : MathModel) (a : Airplane) (delta : ℚ) : Airplane :=
  let pitchInput := clamp a.pitchInput (-1) 1
  let rollInput := clamp a.rollInput (-1) 1
  let maxPitchAngle := degToRad M 30
  let maxRollAngle := degToRad M 75
  let pitchRate := degToRad M 30
  let rollRate := degToRad M 60
  let rotX := clamp (a.rotation.x + pitchInput * pitchRate * delta) (-maxPitchAngle) maxPitchAngle
  let rotZ := clamp (a.rotation.z + rollInput * rollRate * delta) (-maxRollAngle) maxRollAngle
  let rotation : Vec3 := { x := rotX, y := a.rotation.y, z := rotZ }
  let minSpeed : ℚ := 20
  let maxSpeed : ℚ := 150
  let velocity := lerp minSpeed maxSpeed a.throttle
  let displacement := Vec3.multiplyScalar (forwardVector M rotation) (velocity * delta)
  let position := Vec3.add a.position displacement
  let position := if position.y < 2 then { position with y := 2 } else position
  { a with
      pitchInput := pitchInput
      rollInput := rollInput
      rotation := rotation
      velocity := velocity
      position := position }

/-! ## Scene catalog, world composition and input handling -/

/-- One entry of the `SCENES` array: identity and visual parameters of an
environment.  `groundTexture` is a URL string; the source guards on its JS
truthiness (`if (def.groundTexture)`), i.e. on it being nonempty. -/
structure SceneDefinition where
  id : String
  name : String
  skyColor : Nat
  fogColor : Nat
  groundColor : Nat
  ambient : Nat
  directional : Nat
  groundTexture : String
deriving DecidableEq

def idCoast : String := "coast"
def idAlps : String := "alps"
def idDesert : String := "desert"

/-- A scene id matching no catalog entry, used to exercise the invalid-id
path of the selection handler. -/
def idVolcano : String := "volcano"

/-- An all-zero placeholder definition, used only as the (never taken)
fallback of total catalog lookups. -/
def fallbackScene : SceneDefinition :=
  { id := "", name := "", skyColor := 0, fogColor := 0, groundColor := 0, ambient := 0,
    directional := 0, groundTexture := "" }

/-- The `SCENES` catalog (`client/main.js`, lines 27-58). -/
def SCENES : List SceneDefinition :=
  [ { id := idCoast
      name := "Côte luminescente"
      skyColor := 0x92aee0
      fogColor := 0x88a8c0
      groundColor := 0x47677c
      ambient := 0x445570
      directional := 0xffdcb2
      groundTexture := "assets/coast.png" }
  , { id := idAlps
      name := "Alpes d’ardoise"
      skyColor := 0xa9cce3
      fogColor := 0xcfd7e5
      groundColor := 0x6d7a8a
      ambient := 0x586273
      directional := 0xeef5ff
      groundTexture := "assets/alps.png" }
  , { id := idDesert
      name := "Désert mirage"
      skyColor := 0xf1c27d
      fogColor := 0xe4b481
      groundColor := 0xd5a86d
      ambient := 0x8d6e4a
      directional := 0xfff1c2
      groundTexture := "assets/desert.png" } ]

/-- `THREE.RepeatWrapping` (three.js constant `1000`). -/
def RepeatWrapping : Nat := 1000

/-- A loaded `THREE.Texture` with the fields the ground-texture callback
sets: wrap modes and repeat factors. -/
structure Texture where
  url : String
  wrapS : Nat
  wrapT : Nat
  repeatX : ℚ
  repeatY : ℚ
deriving DecidableEq

/-- The `groundMat` `MeshStandardMaterial` created in `buildScene`:
`color`, `metalness: 0.0`, `roughness: 1.0`, no `map` until the texture
callback assigns one (setting `needsUpdate`). -/
structure GroundMaterial where
  color : Nat
  metalness : ℚ
  roughness : ℚ
  map : Option Texture
  needsUpdate : Bool
deriving DecidableEq

/-- The renderable `World` a `buildScene` call composes into the global
`scene`: background and fog colors, fog range, the two lights, and a
reference (heap address) to the ground mesh's material.  Render-only
detail (shadow-map configuration, mesh geometry, ground rotation) carries
no state the claims mention and is omitted. -/
structure World where
  background : Nat
  fogColor : Nat
  fogNear : ℚ
  fogFar : ℚ
  ambientColor : Nat
  ambientIntensity : ℚ
  dirColor : Nat
  dirIntensity : ℚ
  groundMatRef : Nat
deriving DecidableEq

/-- An in-flight `textureLoader.load` call: the closure passed as its
callback captures the `groundMat` of the `buildScene` invocation that
started the load, here recorded as that material's heap address. -/
structure PendingLoad where
  url : String
  matRef : Nat
deriving DecidableEq

/-- The global mutable state of `client/main.js` that the claims touch:
the current `scene` (World), the current `player`, every allocated ground
material (a heap, addressed by allocation index, so that a discarded
World's material still exists and can still be written by a late
callback), and the set of started-but-unresolved texture loads. -/
structure ClientState where
  heap : List GroundMaterial
  scene : World
  player : Airplane
  pending : List PendingLoad
deriving DecidableEq

/-- `buildScene(def)` (`client/main.js`, lines 165-205): replaces the
global `scene` with a fresh World built from the definition, allocates a
fresh `groundMat` (fallback solid `groundColor`, no texture yet), starts
an asynchronous texture load whose callback captures that very material
when `def.groundTexture` is truthy (nonempty), and replaces the global
`player` with `new Airplane()`. -/
def buildScene (st : ClientState) (d : SceneDefinition) : ClientState :=
  let matRef := st.heap.length
  let groundMat : GroundMaterial :=
    { color := d.groundColor, metalness := 0, roughness := 1, map := none, needsUpdate := false }
  { heap := st.heap ++ [groundMat]
    scene :=
      { background := d.skyColor
        fogColor := d.fogColor
        fogNear := 200
        fogFar := 15000
        ambientColor := d.ambient
        ambientIntensity := 6 / 10
        dirColor := d.directional
        dirIntensity := 1
        groundMatRef := matRef }
    player := Airplane.new
    pending :=
      if d.groundTexture = "" then st.pending
      else st.pending ++ [{ url := d.groundTexture, matRef := matRef }] }

/-- The body of the `textureLoader.load` completion callback
(`client/main.js`, lines 190-197): configure the arrived texture (repeat
wrapping, 500×500 tiling) and assign it to the captured `groundMat`,
flagging `needsUpdate`. -/
def textureCallbackBody (mat : GroundMaterial) (url : String) : GroundMaterial :=
  let tex : Texture :=
    { url := url, wrapS := RepeatWrapping, wrapT := RepeatWrapping, repeatX := 500, repeatY := 500 }
  { mat with map := some tex, needsUpdate := true }

instance : Inhabited GroundMaterial :=
  ⟨{ color := 0, metalness := 0, roughness := 0, map := none, needsUpdate := false }⟩

/-- Resolution of a pending texture load: the callback runs against the
material whose address the closure captured, whatever Worlds were built
since; no other heap cell is touched. -/
def resolveLoad (st : ClientState) (p : PendingLoad) : ClientState :=
  { st with
      heap := st.heap.set p.matRef (textureCallbackBody (st.heap.getD p.matRef default) p.url)
      pending := st.pending.erase p }

def keyArrowUp : String := "ArrowUp"
def keyArrowDown : String := "ArrowDown"
def keyWLower : String := "w"
def keyWUpper : String := "W"
def keySLower : String := "s"
def keySUpper : String := "S"
def keyALower : String := "a"
def keyAUpper : String := "A"
def keyDLower : String := "d"
def keyDUpper : String := "D"

/-- The `keydown` listener (`client/main.js`, lines 229-254): ArrowUp and
ArrowDown step `player.throttle` by ±0.05 with a clamp to `[0, 1]`;
w/s set `pitchInput` to ∓1 and a/d set `rollInput` to ∓1; any other key
falls through the switch and changes nothing. -/
def onKeyDown (st : ClientState) (key : String) : ClientState :=
  if key = keyArrowUp then
    { st with player := { st.player with throttle := clamp (st.player.throttle + 5 / 100) 0 1 } }
  else if key = keyArrowDown then
    { st with player := { st.player with throttle := clamp (st.player.throttle - 5 / 100) 0 1 } }
  else if key = keyWLower ∨ key = keyWUpper then
    { st with player := { st.player with pitchInput := -1 } }
  else if key = keySLower ∨ key = keySUpper then
    { st with player := { st.player with pitchInput := 1 } }
  else if key = keyALower ∨ key = keyAUpper then
    { st with player := { st.player with rollInput := -1 } }
  else if key = keyDLower ∨ key = keyDUpper then
    { st with player := { st.player with rollInput := 1 } }
  else st

/-- The `keyup` listener (`client/main.js`, lines 255-270): releasing any
of w/W/s/S zeroes `pitchInput` and releasing any of a/A/d/D zeroes
`rollInput`, unconditionally; other keys change nothing. -/
def onKeyUp (st : ClientState) (key : String) : ClientState :=
  if key = keyWLower ∨ key = keyWUpper ∨ key = keySLower ∨ key = keySUpper then
    { st with player := { st.player with pitchInput := 0 } }
  else if key = keyALower ∨ key = keyAUpper ∨ key = keyDLower ∨ key = keyDUpper then
    { st with player := { st.player with rollInput := 0 } }
  else st

/-- The scene selector's `change` listener (`client/main.js`, lines
224-228): look the selected id up in `SCENES`; build the found definition,
or do nothing at all when no definition matches. -/
def onSceneSelect (st : ClientState) (selectedId : String) : ClientState :=
  match SCENES.find? (fun s => s.id = selectedId) with
  | some d => buildScene st d
  | none => st

/-- The state after `init` ran `buildScene(SCENES[0])`: before it, no
world, airplane, material or load exists (the pre-`init` values of the
`scene`/`player` globals are never read, so any placeholder serves). -/
def initialState : ClientState :=
  buildScene
    { heap := []
      scene :=
        { background := 0, fogColor := 0, fogNear := 0, fogFar := 0, ambientColor := 0,
          ambientIntensity := 0, dirColor := 0, dirIntensity := 0, groundMatRef := 0 }
      player := Airplane.new
      pending := [] }
    (SCENES.getD 0
      { id := "", name := "", skyColor := 0, fogColor := 0, groundColor := 0, ambient := 0,
        directional := 0, groundTexture := "" })

/-- `ds.foldl update`: a finite sequence of `update(Δt)` calls with the
per-call `Δt`s listed left to right. -/
def runUpdates (M : MathModel) (a : Airplane) (ds : List ℚ) : Airplane :=
  ds.foldl (Airplane.update M) a

/-! ## Lemmas about the flight model -/

section UpdateLemmas

variable (M : MathModel) (a : Airplane) (delta : ℚ)

theorem update_throttle : (Airplane.update M a delta).throttle = a.throttle := rfl

theorem update_velocity : (Airplane.update M a delta).velocity = lerp 20 150 a.throttle := rfl

theorem update_pitchInput : (Airplane.update M a delta).pitchInput = clamp a.pitchInput (-1) 1 := rfl

theorem update_rollInput : (Airplane.update M a delta).rollInput = clamp a.rollInput (-1) 1 := rfl

theorem update_rotation_x :
    (Airplane.update M a delta).rotation.x =
      clamp (a.rotation.x + clamp a.pitchInput (-1) 1 * degToRad M 30 * delta)
        (-(degToRad M 30)) (degToRad M 30) := rfl

theorem update_rotation_y : (Airplane.update M a delta).rotation.y = a.rotation.y := rfl

theorem update_rotation_z :
    (Airplane.update M a delta).rotation.z =
      clamp (a.rotation.z + clamp a.rollInput (-1) 1 * degToRad M 60 * delta)
        (-(degToRad M 75)) (degToRad M 75) := rfl

end UpdateLemmas

section ClampLemmas

theorem clamp_le_right (v lo hi : ℚ) (h : lo ≤ hi) : clamp v lo hi ≤ hi := by
  simp only [clamp, max_le_iff]
  exact ⟨h, min_le_left _ _⟩

theorem le_clamp_left (v lo hi : ℚ) : lo ≤ clamp v lo hi :=
  le_max_left _ _

theorem clamp_of_le (v lo hi : ℚ) (hlo : lo ≤ v) (hhi : v ≤ hi) : clamp v lo hi = v := by
  simp only [clamp]
  rw [min_eq_right hhi, max_eq_right hlo]

theorem clamp_of_ge (v lo hi : ℚ) (hlo : lo ≤ hi) (hv : hi ≤ v) : clamp v lo hi = hi := by
  simp only [clamp]
  rw [min_eq_left hv, max_eq_right hlo]

theorem degToRad_nonneg (M : MathModel) (d : ℚ) (hd : 0 ≤ d) : 0 ≤ degToRad M d := by
  have := M.pi_pos
  unfold degToRad
  positivity

end ClampLemmas

theorem Vec3.ext' (v w : Vec3) (hx : v.x = w.x) (hy : v.y = w.y) (hz : v.z = w.z) : v = w := by
  cases v
  cases w
  simp_all

theorem update_position_eq (M : MathModel) (a : Airplane) (delta : ℚ) :
    (Airplane.update M a delta).position =
      (if (Vec3.add a.position
            (Vec3.multiplyScalar (forwardVector M (Airplane.update M a delta).rotation)
              (lerp 20 150 a.throttle * delta))).y < 2 then
        { Vec3.add a.position
            (Vec3.multiplyScalar (forwardVector M (Airplane.update M a delta).rotation)
              (lerp 20 150 a.throttle * delta)) with y := 2 }
      else
        Vec3.add a.position
          (Vec3.multiplyScalar (forwardVector M (Airplane.update M a delta).rotation)
            (lerp 20 150 a.throttle * delta))) := rfl

theorem Vec3.multiplyScalar_zero (v : Vec3) : v.multiplyScalar 0 = { x := 0, y := 0, z := 0 } := by
  simp [Vec3.multiplyScalar]

theorem Vec3.add_zero_vec (v : Vec3) : v.add { x := 0, y := 0, z := 0 } = v := by
  cases v
  simp [Vec3.add]

theorem two_le_update_y (M : MathModel) (a : Airplane) (delta : ℚ) :
    2 ≤ (Airplane.update M a delta).position.y := by
  rw [update_position_eq]
  by_cases hv : (Vec3.add a.position
      (Vec3.multiplyScalar (forwardVector M (Airplane.update M a delta).rotation)
        (lerp 20 150 a.throttle * delta))).y < 2
  · simp only [hv, if_true]
    exact le_refl 2
  · simp only [hv, if_false]
    exact le_of_not_lt hv

theorem runUpdates_nil (M : MathModel) (a : Airplane) : runUpdates M a [] = a := rfl

theorem runUpdates_cons (M : MathModel) (a : Airplane) (d : ℚ) (t : List ℚ) :
    runUpdates M a (d :: t) = runUpdates M (Airplane.update M a d) t := rfl

theorem runUpdates_y_floor (M : MathModel) (t : List ℚ) :
    ∀ a : Airplane, 2 ≤ a.position.y → 2 ≤ (runUpdates M a t).position.y := by
  induction t with
  | nil => intro a ha; exact ha
  | cons d t ih =>
      intro a _
      rw [runUpdates_cons]
      exact ih _ (two_le_update_y M a d)

theorem runUpdates_rotation_y (M : MathModel) (t : List ℚ) :
    ∀ a : Airplane, (runUpdates M a t).rotation.y = a.rotation.y := by
  induction t with
  | nil => intro a; rfl
  | cons d t ih =>
      intro a
      rw [runUpdates_cons, ih, update_rotation_y]

/-! ## Claims about the flight model -/

/-- C2: for every throttle in `[0, 1]` and every `Δt`, after `update(Δt)`
the derived speed equals `lerp(20, 150, throttle) = 20 + throttle * (150 - 20)`
exactly; the speed depends only on the throttle — two states with the same
throttle, stepped with any `Δt`s under any math interpretation, derive the
same speed, whatever their orientation, altitude or previous speed. -/
theorem c2_speed_is_lerp_of_throttle (M : MathModel) (a : Airplane) (delta : ℚ)
    (h0 : 0 ≤ a.throttle) (h1 : a.throttle ≤ 1) :
    (Airplane.update M a delta).velocity = 20 + a.throttle * (150 - 20) ∧
    (∀ (M' : MathModel) (b : Airplane) (delta' : ℚ), b.throttle = a.throttle →
      (Airplane.update M' b delta').velocity = (Airplane.update M a delta).velocity) := by
  constructor
  · rw [update_velocity]
    unfold lerp
    ring
  · intro M' b delta' hb
    rw [update_velocity, update_velocity, hb]

theorem c2_witness :
    (Airplane.update sampleMath Airplane.new 0).velocity =
      20 + Airplane.new.throttle * (150 - 20) :=
  (c2_speed_is_lerp_of_throttle sampleMath Airplane.new 0
    (by norm_num [Airplane.new]) (by norm_num [Airplane.new])).1

/-- C3: for every `Δt ≥ 0` and every initial state, after `update(Δt)` the
pitch angle lies in `[-30°, 30°]` and the roll angle in `[-75°, 75°]`; and
the clamp is a hard stop: full input held against a limit produces no
further rotation. -/
theorem c3_angle_clamp_invariant (M : MathModel) (a : Airplane) (delta : ℚ)
    (hdelta : 0 ≤ delta) :
    (-(degToRad M 30) ≤ (Airplane.update M a delta).rotation.x ∧
      (Airplane.update M a delta).rotation.x ≤ degToRad M 30) ∧
    (-(degToRad M 75) ≤ (Airplane.update M a delta).rotation.z ∧
      (Airplane.update M a delta).rotation.z ≤ degToRad M 75) ∧
    (a.rotation.x = degToRad M 30 → a.pitchInput = 1 →
      (Airplane.update M a delta).rotation.x = degToRad M 30) ∧
    (a.rotation.z = degToRad M 75 → a.rollInput = 1 →
      (Airplane.update M a delta).rotation.z = degToRad M 75) := by
  have h30 : 0 ≤ degToRad M 30 := degToRad_nonneg M 30 (by norm_num)
  have h60 : 0 ≤ degToRad M 60 := degToRad_nonneg M 60 (by norm_num)
  have h75 : 0 ≤ degToRad M 75 := degToRad_nonneg M 75 (by norm_num)
  refine ⟨⟨?_, ?_⟩, ⟨?_, ?_⟩, ?_, ?_⟩
  · rw [update_rotation_x]
    exact le_clamp_left _ _ _
  · rw [update_rotation_x]
    exact clamp_le_right _ _ _ (le_trans (neg_nonpos_of_nonneg h30) h30)
  · rw [update_rotation_z]
    exact le_clamp_left _ _ _
  · rw [update_rotation_z]
    exact clamp_le_right _ _ _ (le_trans (neg_nonpos_of_nonneg h75) h75)
  · intro hx hp
    rw [update_rotation_x, hx, hp]
    rw [clamp_of_le 1 (-1) 1 (by norm_num) (by norm_num)]
    exact clamp_of_ge _ _ _ (le_trans (neg_nonpos_of_nonneg h30) h30)
      (le_add_of_nonneg_right (by positivity))
  · intro hz hr
    rw [update_rotation_z, hz, hr]
    rw [clamp_of_le 1 (-1) 1 (by norm_num) (by norm_num)]
    exact clamp_of_ge _ _ _ (le_trans (neg_nonpos_of_nonneg h75) h75)
      (le_add_of_nonneg_right (by positivity))

theorem c3_witness :
    (0 : ℚ) ≤ 0 ∧ (Airplane.update sampleMath Airplane.new 0).rotation.x ≤ degToRad sampleMath 30 :=
  ⟨le_refl 0, ((c3_angle_clamp_invariant sampleMath Airplane.new 0 (le_refl 0)).1).2⟩

/-- C4: for every initial state with altitude `≥ 2` and every finite
sequence of `update(Δt)` calls with each `Δt ≥ 0`, the altitude
(`position.y`) after every call of the sequence is `≥ 2`. -/
theorem c4_altitude_never_below_two (M : MathModel) (a : Airplane) (ds : List ℚ)
    (ha : 2 ≤ a.position.y) (hds : ∀ d ∈ ds, 0 ≤ d) :
    ∀ i < ds.length, 2 ≤ (runUpdates M a (ds.take (i + 1))).position.y := by
  intro i hi
  cases ds with
  | nil => simp at hi
  | cons d t =>
      rw [List.take_succ_cons, runUpdates_cons]
      exact runUpdates_y_floor M _ _ (two_le_update_y M a d)

theorem c4_witness :
    2 ≤ (runUpdates sampleMath Airplane.new ([1].take (0 + 1))).position.y :=
  c4_altitude_never_below_two sampleMath Airplane.new [1]
    (by norm_num [Airplane.new]) (by norm_num) 0 (by norm_num)

/-- C5 counterexample: on the freshly constructed airplane (a reachable
state — it is the initial one), `update(0)` is not a no-op: it rewrites
the stored `velocity` from its constructor value `0` to
`lerp(20, 150, 0.3) = 59`. -/
theorem c5_counterexample :
    Airplane.update sampleMath Airplane.new 0 ≠ Airplane.new ∧
    (Airplane.update sampleMath Airplane.new 0).velocity = 59 ∧
    Airplane.new.velocity = 0 := by
  refine ⟨?_, ?_, rfl⟩
  · intro h
    have hv := congrArg Airplane.velocity h
    rw [update_velocity] at hv
    norm_num [Airplane.new, lerp] at hv
  · rw [update_velocity]
    norm_num [Airplane.new, lerp]

/-- C5 (amended): for every state whose control inputs already lie in
`[-1, 1]`, whose pitch and roll angles already lie inside their clamp
bounds, and whose altitude is at least 2, `update(0)` leaves orientation,
position, throttle, `pitchInput` and `rollInput` exactly unchanged; the
derived `velocity`, however, is unconditionally recomputed to
`lerp(20, 150, throttle)`, so it is preserved only when it already held
that value (the stored `velocity` starts at `0`, so the very first update
changes it). -/
theorem c5_update_zero_effect (M : MathModel) (a : Airplane)
    (hp1 : -1 ≤ a.pitchInput) (hp2 : a.pitchInput ≤ 1)
    (hr1 : -1 ≤ a.rollInput) (hr2 : a.rollInput ≤ 1)
    (hx1 : -(degToRad M 30) ≤ a.rotation.x) (hx2 : a.rotation.x ≤ degToRad M 30)
    (hz1 : -(degToRad M 75) ≤ a.rotation.z) (hz2 : a.rotation.z ≤ degToRad M 75)
    (hy : 2 ≤ a.position.y) :
    (Airplane.update M a 0).rotation = a.rotation ∧
    (Airplane.update M a 0).position = a.position ∧
    (Airplane.update M a 0).throttle = a.throttle ∧
    (Airplane.update M a 0).pitchInput = a.pitchInput ∧
    (Airplane.update M a 0).rollInput = a.rollInput ∧
    (Airplane.update M a 0).velocity = lerp 20 150 a.throttle := by
  have hpi : clamp a.pitchInput (-1) 1 = a.pitchInput := clamp_of_le _ _ _ hp1 hp2
  have hri : clamp a.rollInput (-1) 1 = a.rollInput := clamp_of_le _ _ _ hr1 hr2
  refine ⟨?_, ?_, rfl, ?_, ?_, rfl⟩
  · apply Vec3.ext'
    · rw [update_rotation_x, hpi, mul_zero, add_zero]
      exact clamp_of_le _ _ _ hx1 hx2
    · rw [update_rotation_y]
    · rw [update_rotation_z, hri, mul_zero, add_zero]
      exact clamp_of_le _ _ _ hz1 hz2
  · rw [update_position_eq, mul_zero, Vec3.multiplyScalar_zero, Vec3.add_zero_vec,
      if_neg (not_lt.mpr hy)]
  · rw [update_pitchInput, hpi]
  · rw [update_rollInput, hri]

theorem c5_witness :
    (Airplane.update sampleMath Airplane.new 0).rotation = Airplane.new.rotation :=
  (c5_update_zero_effect sampleMath Airplane.new
    (by norm_num [Airplane.new]) (by norm_num [Airplane.new])
    (by norm_num [Airplane.new]) (by norm_num [Airplane.new])
    (by norm_num [Airplane.new, degToRad, sampleMath])
    (by norm_num [Airplane.new, degToRad, sampleMath])
    (by norm_num [Airplane.new, degToRad, sampleMath])
    (by norm_num [Airplane.new, degToRad, sampleMath])
    (by norm_num [Airplane.new])).1

/-- C10: `update` never writes the yaw component (`rotation.y`): a single
update preserves it, any finite sequence of updates keeps it at its
initial value `0`, and with pitch and roll both `0` the computed forward
direction is exactly the world `-z` axis. -/
theorem c10_yaw_never_written (M : MathModel) (a : Airplane) (ds : List ℚ)
    (h : a.rotation.y = 0) :
    (∀ delta : ℚ, (Airplane.update M a delta).rotation.y = a.rotation.y) ∧
    (runUpdates M a ds).rotation.y = 0 ∧
    forwardVector M { x := 0, y := 0, z := 0 } = { x := 0, y := 0, z := -1 } := by
  refine ⟨fun delta => update_rotation_y M a delta, ?_, ?_⟩
  · rw [runUpdates_rotation_y, h]
  · have h0 : (0 : ℚ) / 2 = 0 := by norm_num
    simp only [forwardVector, setFromEulerXYZ, Vec3.applyQuaternion, Vec3.normalize,
      Vec3.divideScalar, Vec3.multiplyScalar, Vec3.length, Vec3.lengthSq, h0,
      M.sin_zero, M.cos_zero]
    norm_num [M.sqrt_one]

theorem c10_witness :
    (runUpdates sampleMath Airplane.new []).rotation.y = 0 :=
  (c10_yaw_never_written sampleMath Airplane.new [] rfl).2.1


/-! ## Claims about scene switching and input events -/

theorem onKeyDown_arrowUp_throttle (st : ClientState) :
    (onKeyDown st keyArrowUp).player.throttle = clamp (st.player.throttle + 5 / 100) 0 1 := rfl

theorem onKeyDown_arrowDown_throttle (st : ClientState) :
    (onKeyDown st keyArrowDown).player.throttle = clamp (st.player.throttle - 5 / 100) 0 1 := rfl

/-- C1 counterexample: the state reached by one throttle-increase press
from the initial state has throttle `0.35`; selecting the `alps` scene
rebuilds the World with `player = new Airplane()`, and the throttle reads
`0.3` again — the aircraft state is not preserved across a scene switch. -/
theorem c1_counterexample :
    (onKeyDown initialState keyArrowUp).player.throttle = 7 / 20 ∧
    (onSceneSelect (onKeyDown initialState keyArrowUp) idAlps).player.throttle = 3 / 10 ∧
    (7 : ℚ) / 20 ≠ 3 / 10 := by
  refine ⟨?_, ?_, by norm_num⟩
  · rw [onKeyDown_arrowUp_throttle]
    norm_num [initialState, buildScene, Airplane.new, SCENES, clamp, min_def, max_def]
  · rfl

/-- C1 (amended): a scene switch composes a fresh World from the selected
`SceneDefinition` (sky, fog, lights, fresh flat-colored ground material) —
but it also replaces the aircraft: `buildScene` assigns
`player = new Airplane()`, so position, orientation, throttle, inputs and
velocity are all reset to the constructor values rather than preserved. -/
theorem c1_scene_switch_resets_aircraft (st : ClientState) (d : SceneDefinition) :
    (buildScene st d).player = Airplane.new ∧
    (buildScene st d).scene.background = d.skyColor ∧
    (buildScene st d).scene.fogColor = d.fogColor ∧
    (buildScene st d).scene.ambientColor = d.ambient ∧
    (buildScene st d).scene.dirColor = d.directional ∧
    (buildScene st d).heap[(buildScene st d).scene.groundMatRef]? =
      some { color := d.groundColor, metalness := 0, roughness := 1, map := none,
             needsUpdate := false } := by
  refine ⟨rfl, rfl, rfl, rfl, rfl, ?_⟩
  exact List.getElem?_concat_length st.heap _

/-- C6: a key-release on either axis zeroes that axis's input field
unconditionally, whatever the rest of the state; in particular, after
press left-roll (`a`), press right-roll (`d`), release left-roll (`a`),
the roll input is `0` and not the previously held right-roll value. -/
theorem c6_release_zeroes_axis (st : ClientState) (k : String) :
    ((k = keyWLower ∨ k = keyWUpper ∨ k = keySLower ∨ k = keySUpper) →
      (onKeyUp st k).player.pitchInput = 0) ∧
    ((k = keyALower ∨ k = keyAUpper ∨ k = keyDLower ∨ k = keyDUpper) →
      (onKeyUp st k).player.rollInput = 0) ∧
    (onKeyDown (onKeyDown st keyALower) keyDLower).player.rollInput = 1 ∧
    (onKeyUp (onKeyDown (onKeyDown st keyALower) keyDLower) keyALower).player.rollInput = 0 := by
  refine ⟨?_, ?_, rfl, rfl⟩
  · intro hk
    unfold onKeyUp
    rw [if_pos hk]
  · intro hk
    rcases hk with h | h | h | h <;> subst h <;> rfl

theorem c6_witness :
    (onKeyUp (onKeyDown (onKeyDown initialState keyALower) keyDLower) keyALower).player.rollInput
      = 0 :=
  (c6_release_zeroes_axis initialState keyALower).2.2.2

theorem iterate_arrowUp_throttle (n : ℕ) :
    ∀ st : ClientState,
      ((fun s => onKeyDown s keyArrowUp)^[n] st).player.throttle =
        (fun t : ℚ => clamp (t + 5 / 100) 0 1)^[n] st.player.throttle := by
  induction n with
  | zero => intro st; rfl
  | succ n ih =>
      intro st
      rw [Function.iterate_succ_apply, Function.iterate_succ_apply, ih,
        onKeyDown_arrowUp_throttle]

/-- C7: ArrowUp/ArrowDown step the throttle by exactly ±0.05 with a clamp
to `[0, 1]`; every key event (press or release) keeps a throttle that was
in `[0, 1]` inside `[0, 1]`; and from throttle `0.3`, twenty consecutive
throttle-increase presses drive the throttle to exactly `1`, making the
next `update` derive speed `150`. -/
theorem c7_throttle_step_clamp_saturation (st : ClientState)
    (h0 : 0 ≤ st.player.throttle) (h1 : st.player.throttle ≤ 1) :
    (onKeyDown st keyArrowUp).player.throttle = clamp (st.player.throttle + 5 / 100) 0 1 ∧
    (onKeyDown st keyArrowDown).player.throttle = clamp (st.player.throttle - 5 / 100) 0 1 ∧
    (∀ k : String,
      (0 ≤ (onKeyDown st k).player.throttle ∧ (onKeyDown st k).player.throttle ≤ 1) ∧
      (onKeyUp st k).player.throttle = st.player.throttle) ∧
    (st.player.throttle = 3 / 10 →
      ((fun s => onKeyDown s keyArrowUp)^[20] st).player.throttle = 1 ∧
      ∀ (M : MathModel) (delta : ℚ),
        (Airplane.update M ((fun s => onKeyDown s keyArrowUp)^[20] st).player delta).velocity
          = 150) := by
  refine ⟨rfl, rfl, ?_, ?_⟩
  · intro k
    refine ⟨?_, ?_⟩
    · unfold onKeyDown
      split_ifs
      · exact ⟨le_clamp_left _ _ _, clamp_le_right _ _ _ (by norm_num)⟩
      · exact ⟨le_clamp_left _ _ _, clamp_le_right _ _ _ (by norm_num)⟩
      · exact ⟨h0, h1⟩
      · exact ⟨h0, h1⟩
      · exact ⟨h0, h1⟩
      · exact ⟨h0, h1⟩
      · exact ⟨h0, h1⟩
    · unfold onKeyUp
      split_ifs <;> rfl
  · intro ht
    have hthr : ((fun s => onKeyDown s keyArrowUp)^[20] st).player.throttle = 1 := by
      rw [iterate_arrowUp_throttle, ht]
      norm_num [Function.iterate_succ_apply', clamp, min_def, max_def]
    refine ⟨hthr, ?_⟩
    intro M delta
    rw [update_velocity, hthr]
    norm_num [lerp]

theorem c7_witness :
    ((fun s => onKeyDown s keyArrowUp)^[20] initialState).player.throttle = 1 :=
  ((c7_throttle_step_clamp_saturation initialState
      (by norm_num [initialState, buildScene, Airplane.new])
      (by norm_num [initialState, buildScene, Airplane.new])).2.2.2 rfl).1

/-- C8: a scene-selection event whose id matches no catalog entry leaves
the whole client state — current World, player, material heap and pending
loads — exactly unchanged: the selection is a no-op and nothing fails. -/
theorem c8_invalid_scene_id_noop (st : ClientState) (selectedId : String)
    (h : ∀ s ∈ SCENES, s.id ≠ selectedId) :
    onSceneSelect st selectedId = st := by
  unfold onSceneSelect
  have hfind : SCENES.find? (fun s => s.id = selectedId) = none := by
    rw [List.find?_eq_none]
    intro x hx
    simp [h x hx]
  rw [hfind]

theorem c8_witness : onSceneSelect initialState idVolcano = initialState :=
  c8_invalid_scene_id_noop initialState idVolcano (by decide)

/-- C9: a texture load started while composing one World targets exactly
the ground material allocated by that composition; if a scene switch
builds a newer World before the load resolves, firing the late callback
leaves the newer World and its ground material untouched — the write goes
only to the already-discarded World's material. -/
theorem c9_late_texture_callback_targets_old_world (st st1 st2 : ClientState)
    (d1 d2 : SceneDefinition) (p : PendingLoad)
    (h1 : d1.groundTexture ≠ "")
    (e1 : st1 = buildScene st d1)
    (e2 : st2 = buildScene st1 d2)
    (e3 : p = { url := d1.groundTexture, matRef := st.heap.length }) :
    p ∈ st1.pending ∧
    p.matRef = st1.scene.groundMatRef ∧
    p.matRef ≠ st2.scene.groundMatRef ∧
    (resolveLoad st2 p).scene = st2.scene ∧
    (resolveLoad st2 p).heap[st2.scene.groundMatRef]? = st2.heap[st2.scene.groundMatRef]? ∧
    (∀ i : ℕ, i ≠ p.matRef → (resolveLoad st2 p).heap[i]? = st2.heap[i]?) := by
  subst e1 e2 e3
  have hm2 : (buildScene (buildScene st d1) d2).scene.groundMatRef = st.heap.length + 1 := by
    simp [buildScene]
  refine ⟨?_, rfl, ?_, rfl, ?_, ?_⟩
  · simp only [buildScene, if_neg h1]
    exact List.mem_append_right _ (List.mem_singleton.mpr rfl)
  · rw [hm2]
    exact Nat.ne_of_lt (Nat.lt_succ_self _)
  · rw [hm2]
    exact List.getElem?_set_ne (Nat.ne_of_lt (Nat.lt_succ_self _))
  · intro i hi
    exact List.getElem?_set_ne fun hemem => hi hemem.symm

theorem c9_witness :
    (resolveLoad (buildScene (buildScene initialState (SCENES.getD 1 fallbackScene)) (SCENES.getD 2 fallbackScene))
        { url := (SCENES.getD 1 fallbackScene).groundTexture, matRef := initialState.heap.length }).scene
      = (buildScene (buildScene initialState (SCENES.getD 1 fallbackScene)) (SCENES.getD 2 fallbackScene)).scene :=
  (c9_late_texture_callback_targets_old_world initialState
      (buildScene initialState (SCENES.getD 1 fallbackScene))
      (buildScene (buildScene initialState (SCENES.getD 1 fallbackScene)) (SCENES.getD 2 fallbackScene))
      (SCENES.getD 1 fallbackScene) (SCENES.getD 2 fallbackScene)
      { url := (SCENES.getD 1 fallbackScene).groundTexture, matRef := initialState.heap.length }
      (by decide) rfl rfl rfl).2.2.2.1
